import Mathlib

/-!
Shallow embedding of the Hermes communication service (hermes-socket realtime
gateway and hermes-queue worker) in Lean 4, together with theorems checking the
natural-language specification against the code.

External collaborators (Redis, the Janus identity gateway, Firebase, axios) are
modelled as explicit oracle parameters describing the outcome of each external
call; the control flow around those calls is translated line by line from the
TypeScript source.  Nondeterministic inputs that the code draws from the
environment (uuidv7 identifiers, Date.now clocks) are threaded as explicit
arguments.
-/

namespace Hermes

/-- The four user roles of the platform
(`'staff' | 'director' | 'guardian' | 'student'` in the source). -/
inductive Role where
  | staff
  | director
  | guardian
  | student
deriving DecidableEq, Repr

/-- Result record of `checkCommunicationPermissions`
(src/services/communication-service.ts, `CommunicationPermissions`). -/
structure CommunicationPermissions where
  canMessage : Bool
  allowedRecipients : List String
  errorMessage : Option String
deriving DecidableEq, Repr

/-- Embeds `CommunicationService.checkCommunicationPermissions`
(src/services/communication-service.ts lines 21-42): Director ↔ Student is
denied with a fixed reason, every other role pair is allowed. -/
def checkCommunicationPermissions (senderId : String) (senderType : Role)
    (recipientId : String) (recipientType : Role) : CommunicationPermissions :=
  if (senderType = .director ∧ recipientType = .student) ∨
     (senderType = .student ∧ recipientType = .director) then
    { canMessage := false
      allowedRecipients := []
      errorMessage := some "Communication between Director and Student is not allowed" }
  else
    { canMessage := true
      allowedRecipients := [recipientId]
      errorMessage := none }

/-- Structure `IMessage` (src/models/message.ts), restricted to the fields the core
writes.  `sentAt` is a numeric clock value; optional fields are `Option`. -/
structure IMessage where
  id : String
  senderId : String
  senderType : Role
  recipientIds : List String
  tenantId : String
  messageType : String
  content : String
  subject : Option String
  mediaUrls : Option (List String)
  status : String
  sentAt : Nat
deriving DecidableEq, Repr

/-- The JS conditional `mediaUrls && mediaUrls.length > 0 ? 'media' : t`
shared by every message constructor: an absent (`undefined`, here `none`) or
empty array keeps the path type `t`, a non-empty array forces `'media'`. -/
def mediaOverride (mediaUrls : Option (List String)) (t : String) : String :=
  match mediaUrls with
  | none => t
  | some urls => if urls.length > 0 then "media" else t

/-- The JS idiom `x || d` on an optional string: `undefined` and the empty
string are falsy, so both fall back to the default `d`. -/
def jsOr (x : Option String) (d : String) : String :=
  match x with
  | none => d
  | some s => if s = "" then d else s

/-- The per-user pub/sub channel name built by the source as
a template string: user:id. -/
def userChannel (userId : String) : String :=
  "user:" ++ userId

/-- Observable side effects of the messaging path: a persistence write of a
message (`DatabaseService.saveMessage`) or a pub/sub publish of a serialized
message to a channel (`publishToRoom`).  The order of events in a trace is the
order in which the source invokes the operations. -/
inductive Event where
  | saveMessage (m : IMessage)
  | publish (channel : String) (m : IMessage)
deriving DecidableEq, Repr

/-- Whether an event is a persistence write. -/
def Event.isSave : Event → Bool
  | .saveMessage _ => true
  | .publish _ _ => false

/-- Whether an event is a pub/sub publish. -/
def Event.isPublish : Event → Bool
  | .saveMessage _ => false
  | .publish _ _ => true

/-- Outcome oracle for the two external calls of one send: whether
`DatabaseService.saveMessage` resolves (and with which stored id) and whether
`publishToRoom` resolves. -/
structure DbOracle where
  saveOk : Bool
  savedId : String
  publishOk : Bool
deriving DecidableEq, Repr

/-- Result shape of `sendDirectMessage` / `sendDailyNote`:
`{ success: boolean; messageId?: string; error?: string }`. -/
structure SendResult where
  success : Bool
  messageId : Option String
  error : Option String
deriving DecidableEq, Repr

/-- The message record built by `sendDirectMessage`
(src/services/communication-service.ts lines 63-75). -/
def directMessage (senderId : String) (senderType : Role) (recipientId : String)
    (tenantId subject content : String) (mediaUrls : Option (List String))
    (freshId : String) (now : Nat) : IMessage :=
  { id := "msg_" ++ freshId
    senderId := senderId
    senderType := senderType
    recipientIds := [recipientId]
    tenantId := tenantId
    messageType := mediaOverride mediaUrls "direct"
    content := content
    subject := some subject
    mediaUrls := mediaUrls
    status := "sent"
    sentAt := now }

/-- Embeds `CommunicationService.sendDirectMessage`
(src/services/communication-service.ts lines 47-90): check the policy; on
denial return the failure with the policy reason and perform no effect;
otherwise build the message, save it, then publish it to the recipient's
per-user channel.  A save failure aborts before the publish; a failure of
either call yields the generic error.  The returned trace lists the external
calls actually made, in order. -/
def sendDirectMessage (senderId : String) (senderType : Role)
    (recipientId : String) (recipientType : Role)
    (tenantId subject content : String) (mediaUrls : Option (List String))
    (freshId : String) (now : Nat) (db : DbOracle) : SendResult × List Event :=
  let permissions := checkCommunicationPermissions senderId senderType recipientId recipientType
  if permissions.canMessage = false then
    ({ success := false, messageId := none, error := permissions.errorMessage }, [])
  else
    let message := directMessage senderId senderType recipientId tenantId subject
      content mediaUrls freshId now
    if db.saveOk then
      if db.publishOk then
        ({ success := true, messageId := some db.savedId, error := none },
         [Event.saveMessage message, Event.publish (userChannel recipientId) message])
      else
        ({ success := false, messageId := none, error := some "Failed to send message" },
         [Event.saveMessage message, Event.publish (userChannel recipientId) message])
    else
      ({ success := false, messageId := none, error := some "Failed to send message" },
       [Event.saveMessage message])

/-- The message record built per recipient by `sendAnnouncement`
(src/services/communication-service.ts lines 114-126). -/
def announcementMessage (senderId : String) (senderType : Role) (recipientId : String)
    (tenantId subject content : String) (mediaUrls : Option (List String))
    (freshId : String) (now : Nat) : IMessage :=
  { id := "msg_" ++ freshId
    senderId := senderId
    senderType := senderType
    recipientIds := [recipientId]
    tenantId := tenantId
    messageType := mediaOverride mediaUrls "announcement"
    content := content
    subject := some subject
    mediaUrls := mediaUrls
    status := "sent"
    sentAt := now }

/-- The per-recipient loop body sequence of `CommunicationService.sendAnnouncement`
(src/services/communication-service.ts lines 104-138), recursing over the
recipient list with a positional index selecting each iteration's fresh id and
external-call outcomes.  A recipient whose policy check (always made against
recipient type guardian, as the source hardcodes) fails is skipped; a save
failure skips the publish and swallows the error; a publish failure is likewise
swallowed after the id was already collected. -/
def sendAnnouncementLoop (senderId : String) (senderType : Role)
    (tenantId : String) (recipients : List String) (subject content : String)
    (mediaUrls : Option (List String)) (freshIds : Nat → String) (now : Nat)
    (db : Nat → DbOracle) (i : Nat) : List String × List Event :=
  match recipients with
  | [] => ([], [])
  | recipientId :: rest =>
    let permissions := checkCommunicationPermissions senderId senderType recipientId .guardian
    if permissions.canMessage = false then
      sendAnnouncementLoop senderId senderType tenantId rest subject content
        mediaUrls freshIds now db (i + 1)
    else
      let message := announcementMessage senderId senderType recipientId tenantId
        subject content mediaUrls (freshIds i) now
      let here :=
        if (db i).saveOk then
          if (db i).publishOk then
            ([(db i).savedId],
             [Event.saveMessage message, Event.publish (userChannel recipientId) message])
          else
            ([(db i).savedId],
             [Event.saveMessage message, Event.publish (userChannel recipientId) message])
        else
          ([], [Event.saveMessage message])
      let restResult := sendAnnouncementLoop senderId senderType tenantId rest
        subject content mediaUrls freshIds now db (i + 1)
      (here.1 ++ restResult.1, here.2 ++ restResult.2)

/-- Embeds `CommunicationService.sendAnnouncement`
(src/services/communication-service.ts lines 95-141): run the per-recipient
loop and return success with the collected message ids (the function itself
always reports success). -/
def sendAnnouncement (senderId : String) (senderType : Role) (tenantId : String)
    (recipientIds : List String) (subject content : String)
    (mediaUrls : Option (List String)) (freshIds : Nat → String) (now : Nat)
    (db : Nat → DbOracle) : (Bool × List String) × List Event :=
  let r := sendAnnouncementLoop senderId senderType tenantId recipientIds subject
    content mediaUrls freshIds now db 0
  ((true, r.1), r.2)

/-- The message record built by `sendDailyNote`
(src/services/communication-service.ts lines 164-176). -/
def dailyNoteMessage (senderId : String) (senderType : Role) (guardianId : String)
    (tenantId subject content : String) (mediaUrls : Option (List String))
    (freshId : String) (now : Nat) : IMessage :=
  { id := "msg_" ++ freshId
    senderId := senderId
    senderType := senderType
    recipientIds := [guardianId]
    tenantId := tenantId
    messageType := mediaOverride mediaUrls "daily-note"
    content := content
    subject := some subject
    mediaUrls := mediaUrls
    status := "sent"
    sentAt := now }

/-- Embeds `CommunicationService.sendDailyNote`
(src/services/communication-service.ts lines 146-191): only staff and
directors may send; then save the note and publish it to the guardian's
per-user channel, as in the direct path. -/
def sendDailyNote (senderId : String) (senderType : Role)
    (guardianId studentId tenantId subject content : String)
    (mediaUrls : Option (List String)) (freshId : String) (now : Nat)
    (db : DbOracle) : SendResult × List Event :=
  if senderType ≠ .staff ∧ senderType ≠ .director then
    ({ success := false, messageId := none,
       error := some "Only staffs and directors can send daily notes to guardians" }, [])
  else
    let message := dailyNoteMessage senderId senderType guardianId tenantId subject
      content mediaUrls freshId now
    if db.saveOk then
      if db.publishOk then
        ({ success := true, messageId := some db.savedId, error := none },
         [Event.saveMessage message, Event.publish (userChannel guardianId) message])
      else
        ({ success := false, messageId := none, error := some "Failed to send daily note" },
         [Event.saveMessage message, Event.publish (userChannel guardianId) message])
    else
      ({ success := false, messageId := none, error := some "Failed to send daily note" },
       [Event.saveMessage message])

/-- Identity bound to a WebSocket connection at upgrade time
(the fields passed to `res.upgrade` in src/socket/server.ts lines 272-279). -/
structure ConnState where
  userId : String
  userType : Role
  tenantId : String
  sessionId : String
  token : String
deriving DecidableEq, Repr

/-- Outcome of the Janus user lookup made by `determineRecipientType` through
`callJanusApi` (src/socket/server.ts lines 435-450): either the call and the
payload both succeed and carry the user's role string, or the call returns
without a usable success payload, or the call (or the payload access) throws. -/
inductive JanusUserLookup where
  | ok (role : String)
  | noUser
  | err
deriving DecidableEq, Repr

/-- The role-string whitelist check of src/socket/server.ts line 447:
membership of the string in the four known roles, and the cast to the role. -/
def roleOfString (s : String) : Option Role :=
  if s = "staff" then some .staff
  else if s = "director" then some .director
  else if s = "guardian" then some .guardian
  else if s = "student" then some .student
  else none

/-- Embeds `determineRecipientType` (src/socket/server.ts lines 432-460): on a
successful lookup with a whitelisted role string, that role; in every other
case (unknown role string, unusable response, or a thrown error) the fallback
role guardian. -/
def determineRecipientType (lookup : JanusUserLookup) : Role :=
  match lookup with
  | .ok role =>
    match roleOfString role with
    | some r => r
    | none => .guardian
  | .noUser => .guardian
  | .err => .guardian

/-- Frames the gateway sends back to the message's sender on its own socket
(the `ws.send` calls of the message handler in src/socket/server.ts). -/
inductive ClientFrame where
  | messageSent (messageId : Option String)
  | error (message : String)
  | groupMessageSent
deriving DecidableEq, Repr

/-- The `case 'direct'` branch of the gateway message handler
(src/socket/server.ts lines 307-342): resolve the recipient's role through
Janus, call `sendDirectMessage` with the connection-bound identity, and report
`message_sent` on success or an `error` frame carrying `result.error` (with
the generic fallback text) on failure. -/
def serverHandleDirect (conn : ConnState) (recipientId : String)
    (content : String) (subject : Option String) (mediaUrls : Option (List String))
    (lookup : JanusUserLookup) (freshId : String) (now : Nat) (db : DbOracle) :
    ClientFrame × List Event :=
  let recipientType := determineRecipientType lookup
  let r := sendDirectMessage conn.userId conn.userType recipientId recipientType
    conn.tenantId (jsOr subject "Direct Message") content mediaUrls freshId now db
  if r.1.success then
    (ClientFrame.messageSent r.1.messageId, r.2)
  else
    (ClientFrame.error (jsOr r.1.error "Failed to send message"), r.2)

/-- The message envelope built by the `case 'group'` branch
(src/socket/server.ts lines 351-363): `recipientIds` is the room membership
minus the sender, and `messageType` is group unless media urls force media. -/
def groupMessageObj (senderId : String) (senderType : Role) (tenantId : String)
    (roomUsers : List String) (content : String) (subject : Option String)
    (mediaUrls : Option (List String)) (freshId : String) (now : Nat) : IMessage :=
  { id := "msg_" ++ freshId
    senderId := senderId
    senderType := senderType
    recipientIds := roomUsers.filter (fun id => id ≠ senderId)
    tenantId := tenantId
    messageType := mediaOverride mediaUrls "group"
    content := content
    subject := some (jsOr subject "Group Message")
    mediaUrls := mediaUrls
    status := "sent"
    sentAt := now }

/-- The `case 'group'` branch of the gateway message handler
(src/socket/server.ts lines 344-381): fetch the room members, build one
envelope, publish it to the per-user channel of every member other than the
sender (the source maps over the member list and calls `publishToRoom` exactly
for the non-sender entries, in list order), and confirm to the sender.  No
persistence call appears in this branch. -/
def serverHandleGroup (conn : ConnState) (roomUsers : List String)
    (content : String) (subject : Option String) (mediaUrls : Option (List String))
    (freshId : String) (now : Nat) : ClientFrame × List Event :=
  let messageObj := groupMessageObj conn.userId conn.userType conn.tenantId
    roomUsers content subject mediaUrls freshId now
  (ClientFrame.groupMessageSent,
   (roomUsers.filter (fun id => id ≠ conn.userId)).map
     (fun userId => Event.publish (userChannel userId) messageObj))

/-- Outcome of the axios POST to the Janus gateway inside
`validateServiceViaGateway`: the call resolves with an HTTP status, or it
rejects (with the axios error message when it is an axios error, `none` for a
non-axios error). -/
inductive GatewayOutcome where
  | resolved (status : Nat)
  | threw (axiosMessage : Option String)
deriving DecidableEq, Repr

/-- Structure `ServiceValidationResult` (src/services/validation-service.ts). -/
structure ServiceValidationResult where
  isValid : Bool
  error : Option String
  tenantId : Option String
deriving DecidableEq, Repr

/-- One call to `validateServiceViaGateway`, observed: its returned result,
whether the remote gateway was contacted, and the `setEx` cache write it made
(TTL in seconds and stored value), if any. -/
structure ServiceValidationStep where
  result : ServiceValidationResult
  remoteCalled : Bool
  cacheWrite : Option (Nat × String)
deriving DecidableEq, Repr

/-- Embeds `validateServiceViaGateway` (src/services/validation-service.ts lines
27-77).  `cached` is the value Redis currently holds at the key
service:serviceId:tenantId (`none` on a miss).  A cached valid or a cached
invalid is answered without a remote call and without a write; any other cache
content falls through to the gateway: status 200 caches valid for 600s and
answers valid, any other resolved status caches invalid for 300s, and a thrown
call also caches invalid for 300s, answering with the axios message or the
generic internal-error text. -/
def validateServiceViaGateway (cached : Option String) (tenantId : String)
    (gw : GatewayOutcome) : ServiceValidationStep :=
  if cached = some "valid" then
    { result := { isValid := true, error := none, tenantId := some tenantId }
      remoteCalled := false
      cacheWrite := none }
  else if cached = some "invalid" then
    { result := { isValid := false, error := some "Service authentication failed",
                  tenantId := none }
      remoteCalled := false
      cacheWrite := none }
  else
    match gw with
    | .resolved status =>
      if status = 200 then
        { result := { isValid := true, error := none, tenantId := some tenantId }
          remoteCalled := true
          cacheWrite := some (600, "valid") }
      else
        { result := { isValid := false, error := some "Service authentication failed",
                      tenantId := none }
          remoteCalled := true
          cacheWrite := some (300, "invalid") }
    | .threw axiosMessage =>
      { result := { isValid := false
                    error := some (match axiosMessage with
                      | some msg => msg
                      | none => "Internal server error during validation")
                    tenantId := none }
        remoteCalled := true
        cacheWrite := some (300, "invalid") }

/-- The payload of a resolved Janus token-verification response used by
`validateUserIdentity`: HTTP status, the body's `success` flag and `error`
field, the optional user object (carrying its role string), and the optional
tenant id. -/
structure JanusVerifyResp where
  status : Nat
  success : Bool
  errorField : Option String
  userRole : Option String
  tenantId : Option String
deriving DecidableEq, Repr

/-- Outcome of the axios POST inside `validateUserIdentity`: resolved with a
response, or rejected (axios error with optional response-body error text and
an error message, or a non-axios error). -/
inductive VerifyOutcome where
  | resolved (resp : JanusVerifyResp)
  | threwAxios (respError : Option String) (message : String)
  | threwOther
deriving DecidableEq, Repr

/-- Structure `IdentityValidationResult` (src/services/validation-service.ts). -/
structure IdentityValidationResult where
  isValid : Bool
  error : Option String
  userType : Option String
  tenantId : Option String
deriving DecidableEq, Repr

/-- Embeds `validateUserIdentity` (src/services/validation-service.ts lines 79-140).
`parseErr` is the outcome of the valibot `v.parse` check on the user data
(`none` when the schema accepts, `some msg` when it throws).  Every failure
path — non-success response, missing user object, schema rejection, axios
rejection, unexpected error — yields `isValid := false`. -/
def validateUserIdentity (out : VerifyOutcome) (parseErr : Option String) :
    IdentityValidationResult :=
  match out with
  | .resolved resp =>
    if resp.status ≠ 200 ∨ resp.success = false then
      { isValid := false
        error := some (jsOr resp.errorField "Token validation failed")
        userType := none, tenantId := none }
    else
      match resp.userRole with
      | none =>
        { isValid := false
          error := some "Invalid user data from authentication service"
          userType := none, tenantId := none }
      | some role =>
        match parseErr with
        | some msg =>
          { isValid := false
            error := some ("User data validation failed: " ++ msg)
            userType := none, tenantId := none }
        | none =>
          { isValid := true, error := none
            userType := some role, tenantId := resp.tenantId }
  | .threwAxios respError message =>
    { isValid := false, error := some (jsOr respError message)
      userType := none, tenantId := none }
  | .threwOther =>
    { isValid := false, error := some "Identity validation failed"
      userType := none, tenantId := none }

/-- A Redis value: a plain string (written by `setEx`) or a hash
(field/value pairs). -/
inductive RVal where
  | str (s : String)
  | hash (fields : List (String × String))
deriving DecidableEq, Repr

/-- A Redis keyspace: association list from key to value and absolute expiry
time; writes prepend, reads take the first (most recent) binding for a key and
treat it as absent once expired. -/
structure RedisState where
  entries : List (String × RVal × Nat)
deriving DecidableEq, Repr

/-- Redis `setEx key ttl value`: bind the key to a plain string expiring `ttl`
seconds from `now`. -/
def redisSetEx (st : RedisState) (now : Nat) (key : String) (ttl : Nat)
    (v : String) : RedisState :=
  ⟨(key, RVal.str v, now + ttl) :: st.entries⟩

/-- Read the live value at a key, `none` if the key is absent or expired. -/
def redisLookup (st : RedisState) (now : Nat) (key : String) : Option RVal :=
  match st.entries.find? (fun e => e.1 = key) with
  | some (_, v, expiresAt) => if now < expiresAt then some v else none
  | none => none

/-- Redis `hGetAll key`: an absent or expired key reads as the empty hash, a hash
key reads as its fields, and a key holding a plain string makes the command
reject with a WRONGTYPE error. -/
def redisHGetAll (st : RedisState) (now : Nat) (key : String) :
    Except Unit (List (String × String)) :=
  match redisLookup st now key with
  | none => .ok []
  | some (.hash fields) => .ok fields
  | some (.str _) => .error ()

/-- Embeds `storeSession` (src/services/redis-service.ts lines 44-52): three `setEx`
string writes — session:id → userId, session:tenant:id → tenantId,
user:session:userId → sessionId — all with the same TTL. -/
def storeSession (st : RedisState) (now : Nat)
    (sessionId userId tenantId : String) (expiry : Nat) : RedisState :=
  let st1 := redisSetEx st now ("session:" ++ sessionId) expiry userId
  let st2 := redisSetEx st1 now ("session:tenant:" ++ sessionId) expiry tenantId
  redisSetEx st2 now ("user:session:" ++ userId) expiry sessionId

/-- Embeds `getSessionData` (src/socket/server.ts lines 416-429): `hGetAll` on
session:sessionId; a rejected command is caught and yields `null`; otherwise
the hash is returned when its userId field is truthy, `null` when it is absent
or empty. -/
def getSessionData (st : RedisState) (now : Nat) (sessionId : String) :
    Option (List (String × String)) :=
  match redisHGetAll st now ("session:" ++ sessionId) with
  | .error _ => none
  | .ok fields =>
    match fields.lookup "userId" with
    | some u => if u = "" then none else some fields
    | none => none

/-- JS truthiness of an optional string: absent and empty are falsy. -/
def jsTruthy (x : Option String) : Bool :=
  match x with
  | none => false
  | some s => s ≠ ""

/-- Result of the upgrade handler: the connection is closed, or it is upgraded
with the identity fields bound to it. -/
inductive UpgradeResult where
  | closed
  | upgraded (userId : String) (userType : Option String)
      (tenantId : Option String) (sessionId : String) (token : String)
deriving DecidableEq, Repr

/-- The `upgrade` handler (src/socket/server.ts lines 248-289): `sessionId` is
the query parameter and `token` the bearer token already stripped from the
Authorization header (absent header → `none`).  Close when either is falsy;
otherwise look the session up and close when `getSessionData` yields `null`,
else upgrade, binding the session's userId/userType/tenantId together with the
sessionId and token. -/
def upgradeHandler (st : RedisState) (now : Nat)
    (sessionId token : Option String) : UpgradeResult :=
  if jsTruthy sessionId = false ∨ jsTruthy token = false then .closed
  else
    let sid := sessionId.getD ""
    match getSessionData st now sid with
    | none => .closed
    | some fields =>
      .upgraded ((fields.lookup "userId").getD "") (fields.lookup "userType")
        (fields.lookup "tenantId") sid (token.getD "")

/-- The six task types with a dispatch case in `handleTask`
(src/services/queue-services.ts). -/
def knownTaskTypes : List String :=
  ["email_dispatch", "media_processing", "service_routing", "notification",
   "announcement", "bulk_update"]

/-- Outcome of the one per-type handler a task dispatches to: it returns
normally or it throws. -/
inductive HandlerOutcome where
  | ok
  | threw
deriving DecidableEq, Repr

/-- Observed behaviour of one `handleTask` call: whether it propagated an
error to its caller, and whether it logged the unknown-type warning. -/
structure HandleTaskStep where
  raised : Bool
  warnedUnknown : Bool
deriving DecidableEq, Repr

/-- Embeds `handleTask` (src/services/queue-services.ts lines 7-54): a known type
dispatches to exactly one handler and rethrows that handler's error after
logging it; an unknown type only logs a warning and returns normally. -/
def handleTask (ty : String) (handler : HandlerOutcome) : HandleTaskStep :=
  if ty ∈ knownTaskTypes then
    { raised := handler = .threw, warnedUnknown := false }
  else
    { raised := false, warnedUnknown := true }

/-- Observed behaviour of the worker loop body for one claimed stream record:
whether `xAck` was issued, whether the catch-block error log fired, and
whether the unknown-type warning fired. -/
structure RecordStep where
  acked : Bool
  errorLogged : Bool
  warnedUnknown : Bool
deriving DecidableEq, Repr

/-- The per-record body of `processQueue` (src/queue/worker.ts lines 144-167):
parse the record (`parseOk` is the outcome of `JSON.parse` on the payload),
run `handleTask`, and call `xAck` only when both steps completed without
throwing; any throw is caught and logged and the record is left
unacknowledged. -/
def processRecord (parseOk : Bool) (ty : String) (handler : HandlerOutcome) :
    RecordStep :=
  if parseOk = false then
    { acked := false, errorLogged := true, warnedUnknown := false }
  else
    let h := handleTask ty handler
    if h.raised then
      { acked := false, errorLogged := true, warnedUnknown := h.warnedUnknown }
    else
      { acked := true, errorLogged := false, warnedUnknown := h.warnedUnknown }

/-- A trace discipline: every publish event is of a message that an earlier
save event in the trace already persisted (`saved` accumulates the messages
saved so far). -/
def publishesPrecededBySave (saved : List IMessage) : List Event → Bool
  | [] => true
  | Event.saveMessage m :: es => publishesPrecededBySave (m :: saved) es
  | Event.publish _ m :: es => saved.contains m && publishesPrecededBySave saved es

/-- Distinct user ids get distinct per-user channels. -/
theorem userChannel_injective : Function.Injective userChannel := by
  intro a b h
  apply String.ext
  have hd : ("user:" ++ a).data = ("user:" ++ b).data := congrArg String.data h
  rw [String.data_append, String.data_append] at hd
  exact List.append_cancel_left hd

/-- On every denied pair the policy's reason is the fixed Director/Student
text. -/
theorem errorMessage_of_denied (senderId recipientId : String) (s r : Role)
    (h : (checkCommunicationPermissions senderId s recipientId r).canMessage = false) :
    (checkCommunicationPermissions senderId s recipientId r).errorMessage =
      some "Communication between Director and Student is not allowed" := by
  cases s <;> cases r <;> simp_all [checkCommunicationPermissions]

/-- Claim C1: for every pair of role labels, the policy check allows the pair,
except (director, student) in either order, which is denied together with a
non-empty human-readable reason. -/
theorem policy_allows_all_but_director_student
    (senderId recipientId : String) (s r : Role) :
    ((checkCommunicationPermissions senderId s recipientId r).canMessage = false ↔
      ((s = .director ∧ r = .student) ∨ (s = .student ∧ r = .director))) ∧
    ((checkCommunicationPermissions senderId s recipientId r).canMessage = false →
      ∃ m, (checkCommunicationPermissions senderId s recipientId r).errorMessage = some m ∧
        m.length > 0) := by
  constructor
  · cases s <;> cases r <;> simp [checkCommunicationPermissions]
  · intro h
    refine ⟨"Communication between Director and Student is not allowed",
      errorMessage_of_denied senderId recipientId s r h, by decide⟩

/-- Witness for C1 at the concrete pair (director, student). -/
theorem policy_allows_all_but_director_student_witness :
    (checkCommunicationPermissions "director:1" Role.director "student:9"
        Role.student).canMessage = false ∧
    ∃ m, (checkCommunicationPermissions "director:1" Role.director "student:9"
        Role.student).errorMessage = some m ∧ m.length > 0 := by
  have h := policy_allows_all_but_director_student "director:1" "student:9"
    Role.director Role.student
  have hc : (checkCommunicationPermissions "director:1" Role.director "student:9"
      Role.student).canMessage = false := h.1.mpr (Or.inl ⟨rfl, rfl⟩)
  exact ⟨hc, h.2 hc⟩

/-- Claim C2: a direct send whose (sender role, recipient role) pair is denied
by the policy persists nothing, publishes nothing, and answers the sender with
an error frame carrying exactly the policy's denial reason. -/
theorem denied_direct_send_has_no_effects (conn : ConnState)
    (recipientId content : String) (subject : Option String)
    (mediaUrls : Option (List String)) (lookup : JanusUserLookup)
    (freshId : String) (now : Nat) (db : DbOracle)
    (h : (checkCommunicationPermissions conn.userId conn.userType recipientId
      (determineRecipientType lookup)).canMessage = false) :
    (serverHandleDirect conn recipientId content subject mediaUrls lookup
      freshId now db).2 = [] ∧
    (serverHandleDirect conn recipientId content subject mediaUrls lookup
      freshId now db).1 =
      ClientFrame.error "Communication between Director and Student is not allowed" := by
  have he := errorMessage_of_denied conn.userId recipientId conn.userType
    (determineRecipientType lookup) h
  constructor
  · simp [serverHandleDirect, sendDirectMessage, h]
  · simp [serverHandleDirect, sendDirectMessage, h, he, jsOr]

/-- Witness for C2: a director messaging a student (role resolved as student
by the lookup) with a healthy database oracle — nothing is saved or published
and the sender gets the exact denial text. -/
theorem denied_direct_send_has_no_effects_witness :
    (checkCommunicationPermissions "director:1" Role.director "student:9"
      (determineRecipientType (JanusUserLookup.ok "student"))).canMessage = false ∧
    (serverHandleDirect ⟨"director:1", Role.director, "t1", "session_1", "tok"⟩
      "student:9" "hello" none none (JanusUserLookup.ok "student") "id1" 0
      ⟨true, "m1", true⟩).2 = [] ∧
    (serverHandleDirect ⟨"director:1", Role.director, "t1", "session_1", "tok"⟩
      "student:9" "hello" none none (JanusUserLookup.ok "student") "id1" 0
      ⟨true, "m1", true⟩).1 =
      ClientFrame.error "Communication between Director and Student is not allowed" := by
  have h : (checkCommunicationPermissions "director:1" Role.director "student:9"
      (determineRecipientType (JanusUserLookup.ok "student"))).canMessage = false := by
    decide
  have hr := denied_direct_send_has_no_effects
    ⟨"director:1", Role.director, "t1", "session_1", "tok"⟩ "student:9" "hello"
    none none (JanusUserLookup.ok "student") "id1" 0 ⟨true, "m1", true⟩ h
  exact ⟨h, hr.1, hr.2⟩

/-- Claim C3 (evaluated at its failing input): a session stored by
`storeSession` at time 0 with a 3600s TTL is presented, unexpired, at time 10
with the correct sessionId and a bearer token, yet the upgrade handler closes
the connection: `storeSession` writes the session as a plain string while
`getSessionData` reads it with `hGetAll`, which rejects on a string key, so no
stored session is ever accepted. -/
theorem stored_session_upgrade_still_closed :
    upgradeHandler (storeSession ⟨[]⟩ 0 "session_1" "u1" "t1" 3600) 10
      (some "session_1") (some "tok") = UpgradeResult.closed := by
  decide

/-- Claim C4: a claimed record that parses and dispatches to one of the known
handlers is acknowledged exactly when that handler returns without error; a
throwing handler is logged and the record is left unacknowledged. -/
theorem record_acked_iff_handler_ok (ty : String) (handler : HandlerOutcome)
    (h : ty ∈ knownTaskTypes) :
    ((processRecord true ty handler).acked = true ↔ handler = HandlerOutcome.ok) ∧
    (handler = HandlerOutcome.threw →
      (processRecord true ty handler).errorLogged = true ∧
      (processRecord true ty handler).acked = false) := by
  cases handler <;> simp [processRecord, handleTask, h]

/-- Witness for C4 at a concrete known type with a throwing handler. -/
theorem record_acked_iff_handler_ok_witness :
    "email_dispatch" ∈ knownTaskTypes ∧
    ((processRecord true "email_dispatch" HandlerOutcome.threw).acked = true ↔
      HandlerOutcome.threw = HandlerOutcome.ok) ∧
    (HandlerOutcome.threw = HandlerOutcome.threw →
      (processRecord true "email_dispatch" HandlerOutcome.threw).errorLogged = true ∧
      (processRecord true "email_dispatch" HandlerOutcome.threw).acked = false) :=
  ⟨by decide, record_acked_iff_handler_ok "email_dispatch" HandlerOutcome.threw (by decide)⟩

/-- Counterexample to claim C5: the record type "mystery" is not one of the
six known handler types, the unknown-type warning is logged, and yet the
record IS acknowledged — `handleTask` returns normally from its default case,
so the worker loop reaches `xAck`. -/
theorem unknown_type_record_acked_counterexample :
    ("mystery" ∈ knownTaskTypes → False) ∧
    (processRecord true "mystery" HandlerOutcome.ok).warnedUnknown = true ∧
    (processRecord true "mystery" HandlerOutcome.ok).acked = true := by
  decide

/-- Claim C5 as amended: a claimed record whose type is not one of the six
known handler types has the unknown type logged, and the record is then
acknowledged (the dispatcher's default case returns without error, so the
worker proceeds to `xAck`). -/
theorem unknown_type_logged_and_acked (ty : String) (handler : HandlerOutcome)
    (h : ty ∉ knownTaskTypes) :
    (processRecord true ty handler).warnedUnknown = true ∧
    (processRecord true ty handler).acked = true ∧
    (processRecord true ty handler).errorLogged = false := by
  simp [processRecord, handleTask, h]

/-- Witness for amended C5 at the concrete unknown type "bogus". -/
theorem unknown_type_logged_and_acked_witness :
    "bogus" ∉ knownTaskTypes ∧
    ((processRecord true "bogus" HandlerOutcome.ok).warnedUnknown = true ∧
     (processRecord true "bogus" HandlerOutcome.ok).acked = true ∧
     (processRecord true "bogus" HandlerOutcome.ok).errorLogged = false) :=
  ⟨by decide, unknown_type_logged_and_acked "bogus" HandlerOutcome.ok (by decide)⟩

/-- Counterexample to claim C6: a group frame from sender u1 in a room with
members u1 and u2 makes the gateway publish to a room channel, and the trace
of that handling contains no persistence write at all — the group path
publishes a message that was never persisted. -/
theorem group_path_publishes_without_persisting :
    ((serverHandleGroup ⟨"u1", Role.staff, "t1", "session_1", "tok"⟩
      ["u1", "u2"] "hello" none none "id1" 0).2.any Event.isPublish = true) ∧
    ((serverHandleGroup ⟨"u1", Role.staff, "t1", "session_1", "tok"⟩
      ["u1", "u2"] "hello" none none "id1" 0).2.any Event.isSave = false) := by
  constructor <;> rfl

/-- Claim C6 as amended: on the direct path every publish is preceded in the
trace by a persistence write of the same message (the save failing aborts
before the publish), while the group path never performs a persistence write
at all. -/
theorem direct_persists_before_publish_group_never_persists :
    (∀ (senderId : String) (senderType : Role) (recipientId : String)
       (recipientType : Role) (tenantId subject content : String)
       (mediaUrls : Option (List String)) (freshId : String) (now : Nat)
       (db : DbOracle),
       publishesPrecededBySave []
         (sendDirectMessage senderId senderType recipientId recipientType
           tenantId subject content mediaUrls freshId now db).2 = true) ∧
    (∀ (conn : ConnState) (roomUsers : List String) (content : String)
       (subject : Option String) (mediaUrls : Option (List String))
       (freshId : String) (now : Nat),
       (serverHandleGroup conn roomUsers content subject mediaUrls
         freshId now).2.any Event.isSave = false) := by
  constructor
  · intro senderId senderType recipientId recipientType tenantId subject content
      mediaUrls freshId now db
    by_cases hp : (checkCommunicationPermissions senderId senderType recipientId
        recipientType).canMessage = false
    · simp [sendDirectMessage, hp, publishesPrecededBySave]
    · cases hs : db.saveOk <;> cases hpub : db.publishOk <;>
        simp [sendDirectMessage, hp, hs, hpub, publishesPrecededBySave]
  · intro conn roomUsers content subject mediaUrls freshId now
    simp only [serverHandleGroup]
    rw [List.any_eq_false]
    intro e he
    rcases List.mem_map.mp he with ⟨x, hx, rfl⟩
    simp [Event.isSave]

/-- Counterexample to claim C7: the recipient-role lookup treats a failed
dependency not as invalid but as the permissive default role guardian, so a
director's direct message to user student:9 (whose actual role could not be
determined because the lookup threw) passes the policy and is saved and
published. -/
theorem failed_role_lookup_defaults_to_guardian :
    determineRecipientType JanusUserLookup.err = Role.guardian ∧
    (serverHandleDirect ⟨"director:1", Role.director, "t1", "session_1", "tok"⟩
      "student:9" "hello" none none JanusUserLookup.err "id1" 0
      ⟨true, "m1", true⟩).1 = ClientFrame.messageSent (some "m1") ∧
    (serverHandleDirect ⟨"director:1", Role.director, "t1", "session_1", "tok"⟩
      "student:9" "hello" none none JanusUserLookup.err "id1" 0
      ⟨true, "m1", true⟩).2.any Event.isSave = true := by
  refine ⟨rfl, rfl, rfl⟩

/-- Claim C7 as amended: the service validator and the identity validator fail
closed — a thrown gateway call (or a non-success verification response) yields
invalid — but the recipient-role lookup `determineRecipientType` instead falls
back to the permissive default role guardian whenever its remote call errors
or returns no usable role. -/
theorem validators_fail_closed_but_role_lookup_defaults :
    (∀ (cached : Option String) (tenantId : String) (msg : Option String),
       cached ≠ some "valid" → cached ≠ some "invalid" →
       (validateServiceViaGateway cached tenantId
         (GatewayOutcome.threw msg)).result.isValid = false) ∧
    (∀ (respError : Option String) (message : String) (parseErr : Option String),
       (validateUserIdentity (VerifyOutcome.threwAxios respError message)
         parseErr).isValid = false) ∧
    (∀ (parseErr : Option String),
       (validateUserIdentity VerifyOutcome.threwOther parseErr).isValid = false) ∧
    (∀ (resp : JanusVerifyResp) (parseErr : Option String),
       resp.success = false →
       (validateUserIdentity (VerifyOutcome.resolved resp) parseErr).isValid = false) ∧
    determineRecipientType JanusUserLookup.err = Role.guardian ∧
    determineRecipientType JanusUserLookup.noUser = Role.guardian := by
  refine ⟨?_, ?_, ?_, ?_, rfl, rfl⟩
  · intro cached tenantId msg h1 h2
    simp [validateServiceViaGateway, h1, h2]
  · intro respError message parseErr
    simp [validateUserIdentity]
  · intro parseErr
    simp [validateUserIdentity]
  · intro resp parseErr hs
    simp [validateUserIdentity, hs]

/-- Witness for amended C7 at concrete inputs: a cache miss with a thrown
gateway call, a thrown verification call, and a non-success verification
response all come back invalid, while the failed role lookup comes back
guardian. -/
theorem validators_fail_closed_but_role_lookup_defaults_witness :
    ((none : Option String) ≠ some "valid") ∧
    ((none : Option String) ≠ some "invalid") ∧
    (validateServiceViaGateway none "t1"
      (GatewayOutcome.threw (some "connect ECONNREFUSED"))).result.isValid = false ∧
    (validateUserIdentity (VerifyOutcome.threwAxios none "timeout") none).isValid = false ∧
    (validateUserIdentity VerifyOutcome.threwOther none).isValid = false ∧
    (validateUserIdentity (VerifyOutcome.resolved ⟨200, false, none, none, none⟩)
      none).isValid = false ∧
    determineRecipientType JanusUserLookup.err = Role.guardian := by
  have h := validators_fail_closed_but_role_lookup_defaults
  exact ⟨by decide, by decide,
    h.1 none "t1" (some "connect ECONNREFUSED") (by decide) (by decide),
    h.2.1 none "timeout" none,
    h.2.2.1 none,
    h.2.2.2.1 ⟨200, false, none, none, none⟩ none rfl,
    h.2.2.2.2.1⟩

/-- Publishing the same envelope to distinct user channels gives distinct
events. -/
theorem publish_event_injective (msg : IMessage) :
    Function.Injective (fun u => Event.publish (userChannel u) msg) := by
  intro a b h
  simp only [Event.publish.injEq, and_true] at h
  exact userChannel_injective h

/-- Claim C8: a group frame publishes the envelope to the per-user channel of
every current room member except the sender, exactly once per such member,
every published event is of that shape, an empty room publishes nothing, and
the envelope's recipientIds is the member list minus the sender.  The member
list is the read of a Redis set, hence duplicate-free. -/
theorem group_fanout_exactly_once (conn : ConnState) (roomUsers : List String)
    (content : String) (subject : Option String)
    (mediaUrls : Option (List String)) (freshId : String) (now : Nat)
    (hnd : roomUsers.Nodup) :
    (∀ m, m ∈ roomUsers → m ≠ conn.userId →
      ((serverHandleGroup conn roomUsers content subject mediaUrls freshId
          now).2).count
        (Event.publish (userChannel m)
          (groupMessageObj conn.userId conn.userType conn.tenantId roomUsers
            content subject mediaUrls freshId now)) = 1) ∧
    (∀ e, e ∈ (serverHandleGroup conn roomUsers content subject mediaUrls
        freshId now).2 →
      ∃ m, m ∈ roomUsers ∧ m ≠ conn.userId ∧
        e = Event.publish (userChannel m)
          (groupMessageObj conn.userId conn.userType conn.tenantId roomUsers
            content subject mediaUrls freshId now)) ∧
    (roomUsers = [] →
      (serverHandleGroup conn roomUsers content subject mediaUrls freshId
        now).2 = []) ∧
    (groupMessageObj conn.userId conn.userType conn.tenantId roomUsers content
      subject mediaUrls freshId now).recipientIds =
      roomUsers.filter (fun id => id ≠ conn.userId) := by
  refine ⟨?_, ?_, ?_, rfl⟩
  · intro m hm hne
    have hcount := List.count_map_of_injective
      (roomUsers.filter (fun id => id ≠ conn.userId))
      (fun u => Event.publish (userChannel u)
        (groupMessageObj conn.userId conn.userType conn.tenantId roomUsers
          content subject mediaUrls freshId now))
      (publish_event_injective _) m
    have hmem : m ∈ roomUsers.filter (fun id => id ≠ conn.userId) :=
      List.mem_filter.mpr ⟨hm, by simp [hne]⟩
    calc ((serverHandleGroup conn roomUsers content subject mediaUrls freshId
        now).2).count _ = (roomUsers.filter (fun id => id ≠ conn.userId)).count m :=
          hcount
      _ = 1 := List.count_eq_one_of_mem (hnd.filter _) hmem
  · intro e he
    rcases List.mem_map.mp he with ⟨u, hu, rfl⟩
    rcases List.mem_filter.mp hu with ⟨humem, hune⟩
    exact ⟨u, humem, by simpa using hune, rfl⟩
  · intro h
    subst h
    rfl

/-- Witness for C8: in the room with members u1, u2, u3 and sender u1, the
handler publishes exactly once to u2's channel and exactly once to u3's, and
the envelope addresses exactly u2 and u3. -/
theorem group_fanout_exactly_once_witness :
    (["u1", "u2", "u3"] : List String).Nodup ∧
    ((serverHandleGroup ⟨"u1", Role.staff, "t1", "session_1", "tok"⟩
        ["u1", "u2", "u3"] "hi" none none "id1" 0).2).count
      (Event.publish (userChannel "u2")
        (groupMessageObj "u1" Role.staff "t1" ["u1", "u2", "u3"] "hi" none none
          "id1" 0)) = 1 ∧
    ((serverHandleGroup ⟨"u1", Role.staff, "t1", "session_1", "tok"⟩
        ["u1", "u2", "u3"] "hi" none none "id1" 0).2).count
      (Event.publish (userChannel "u3")
        (groupMessageObj "u1" Role.staff "t1" ["u1", "u2", "u3"] "hi" none none
          "id1" 0)) = 1 ∧
    (groupMessageObj "u1" Role.staff "t1" ["u1", "u2", "u3"] "hi" none none
      "id1" 0).recipientIds = ["u2", "u3"] := by
  have h := group_fanout_exactly_once
    ⟨"u1", Role.staff, "t1", "session_1", "tok"⟩ ["u1", "u2", "u3"] "hi" none
    none "id1" 0 (by decide)
  refine ⟨by decide, h.1 "u2" (by decide) (by decide),
    h.1 "u3" (by decide) (by decide), ?_⟩
  rw [h.2.2.2]
  decide

/-- Claim C9: the service validator answers from the cache (either polarity)
without a remote call and without a cache write; on a miss it calls the
gateway, caching a 200 result as valid for 600s and answering valid, and
caching any other resolved status or a thrown call as invalid for 300s,
answering invalid. -/
theorem service_validation_cache_discipline (cached : Option String)
    (tenantId : String) (gw : GatewayOutcome) :
    (cached = some "valid" →
      (validateServiceViaGateway cached tenantId gw).result.isValid = true ∧
      (validateServiceViaGateway cached tenantId gw).remoteCalled = false ∧
      (validateServiceViaGateway cached tenantId gw).cacheWrite = none) ∧
    (cached = some "invalid" →
      (validateServiceViaGateway cached tenantId gw).result.isValid = false ∧
      (validateServiceViaGateway cached tenantId gw).remoteCalled = false ∧
      (validateServiceViaGateway cached tenantId gw).cacheWrite = none) ∧
    (cached = none →
      (validateServiceViaGateway cached tenantId gw).remoteCalled = true ∧
      (gw = GatewayOutcome.resolved 200 →
        (validateServiceViaGateway cached tenantId gw).result.isValid = true ∧
        (validateServiceViaGateway cached tenantId gw).cacheWrite =
          some (600, "valid")) ∧
      (∀ s, s ≠ 200 → gw = GatewayOutcome.resolved s →
        (validateServiceViaGateway cached tenantId gw).result.isValid = false ∧
        (validateServiceViaGateway cached tenantId gw).cacheWrite =
          some (300, "invalid")) ∧
      (∀ m, gw = GatewayOutcome.threw m →
        (validateServiceViaGateway cached tenantId gw).result.isValid = false ∧
        (validateServiceViaGateway cached tenantId gw).cacheWrite =
          some (300, "invalid"))) := by
  refine ⟨?_, ?_, ?_⟩
  · intro h
    subst h
    simp [validateServiceViaGateway]
  · intro h
    subst h
    simp [validateServiceViaGateway]
  · intro h
    subst h
    refine ⟨?_, ?_, ?_, ?_⟩
    · cases gw with
      | resolved s =>
        by_cases hs : s = 200 <;> simp [validateServiceViaGateway, hs]
      | threw m => simp [validateServiceViaGateway]
    · intro hg
      subst hg
      simp [validateServiceViaGateway]
    · intro s hs hg
      subst hg
      simp [validateServiceViaGateway, hs]
    · intro m hg
      subst hg
      simp [validateServiceViaGateway]

/-- Witness for C9: a cached invalid is served without a remote call; a miss
with a 200 gateway response is cached valid for 600s; a miss with a thrown
call is cached invalid for 300s and answered invalid. -/
theorem service_validation_cache_discipline_witness :
    ((some "invalid" : Option String) = some "invalid") ∧
    ((validateServiceViaGateway (some "invalid") "t1"
        (GatewayOutcome.resolved 200)).result.isValid = false ∧
      (validateServiceViaGateway (some "invalid") "t1"
        (GatewayOutcome.resolved 200)).remoteCalled = false ∧
      (validateServiceViaGateway (some "invalid") "t1"
        (GatewayOutcome.resolved 200)).cacheWrite = none) ∧
    ((validateServiceViaGateway none "t1"
        (GatewayOutcome.resolved 200)).result.isValid = true ∧
      (validateServiceViaGateway none "t1"
        (GatewayOutcome.resolved 200)).cacheWrite = some (600, "valid")) ∧
    ((validateServiceViaGateway none "t1"
        (GatewayOutcome.threw none)).result.isValid = false ∧
      (validateServiceViaGateway none "t1"
        (GatewayOutcome.threw none)).cacheWrite = some (300, "invalid")) := by
  refine ⟨rfl, (service_validation_cache_discipline (some "invalid") "t1"
    (GatewayOutcome.resolved 200)).2.1 rfl, ?_, ?_⟩
  · exact ((service_validation_cache_discipline none "t1"
      (GatewayOutcome.resolved 200)).2.2 rfl).2.1 rfl
  · exact ((service_validation_cache_discipline none "t1"
      (GatewayOutcome.threw none)).2.2 rfl).2.2.2 none rfl

/-- Claim C10: every message constructor records messageType media exactly
when the mediaUrls array is present and non-empty; with an absent or empty
array it records its own path type (direct, group, announcement, daily-note).
-/
theorem media_urls_override_message_type (senderId : String) (senderType : Role)
    (recipientId tenantId subject content : String) (subjectOpt : Option String)
    (roomUsers : List String) (freshId : String) (now : Nat)
    (mediaUrls : Option (List String)) :
    ((mediaUrls = none ∨ mediaUrls = some []) →
      (directMessage senderId senderType recipientId tenantId subject content
        mediaUrls freshId now).messageType = "direct" ∧
      (groupMessageObj senderId senderType tenantId roomUsers content
        subjectOpt mediaUrls freshId now).messageType = "group" ∧
      (announcementMessage senderId senderType recipientId tenantId subject
        content mediaUrls freshId now).messageType = "announcement" ∧
      (dailyNoteMessage senderId senderType recipientId tenantId subject
        content mediaUrls freshId now).messageType = "daily-note") ∧
    (∀ u l, mediaUrls = some (u :: l) →
      (directMessage senderId senderType recipientId tenantId subject content
        mediaUrls freshId now).messageType = "media" ∧
      (groupMessageObj senderId senderType tenantId roomUsers content
        subjectOpt mediaUrls freshId now).messageType = "media" ∧
      (announcementMessage senderId senderType recipientId tenantId subject
        content mediaUrls freshId now).messageType = "media" ∧
      (dailyNoteMessage senderId senderType recipientId tenantId subject
        content mediaUrls freshId now).messageType = "media") := by
  constructor
  · rintro (rfl | rfl) <;>
      simp [directMessage, groupMessageObj, announcementMessage,
        dailyNoteMessage, mediaOverride]
  · rintro u l rfl
    simp [directMessage, groupMessageObj, announcementMessage,
      dailyNoteMessage, mediaOverride]

/-- Witness for C10 at an absent array and at a one-element array. -/
theorem media_urls_override_message_type_witness :
    ((none : Option (List String)) = none ∨
      (none : Option (List String)) = some []) ∧
    ((directMessage "s1" Role.staff "g1" "t1" "sub" "c" none "id1"
        0).messageType = "direct" ∧
      (groupMessageObj "s1" Role.staff "t1" ["s1", "g1"] "c" none none "id1"
        0).messageType = "group" ∧
      (announcementMessage "s1" Role.staff "g1" "t1" "sub" "c" none "id1"
        0).messageType = "announcement" ∧
      (dailyNoteMessage "s1" Role.staff "g1" "t1" "sub" "c" none "id1"
        0).messageType = "daily-note") ∧
    ((some ["http a"] : Option (List String)) = some ["http a"]) ∧
    (directMessage "s1" Role.staff "g1" "t1" "sub" "c" (some ["http a"]) "id1"
      0).messageType = "media" := by
  refine ⟨Or.inl rfl, ?_, rfl, ?_⟩
  · exact (media_urls_override_message_type "s1" Role.staff "g1" "t1" "sub" "c"
      none ["s1", "g1"] "id1" 0 none).1 (Or.inl rfl)
  · exact ((media_urls_override_message_type "s1" Role.staff "g1" "t1" "sub" "c"
      none ["s1", "g1"] "id1" 0 (some ["http a"])).2 "http a" [] rfl).1

end Hermes
